import Mathlib

/-
A verification development for the Google TTS server (`main.py`): a FastAPI
façade over the Google Cloud text-to-speech API.  The definitions below are a
shallow embedding of the request validation, language-code derivation, voice
catalog filtering, the two synthesis endpoints, the voice-listing endpoint and
the best-effort activity logger.  The external collaborators (the Google TTS
client and the PostgreSQL pool) are modelled as explicit behaviour records, so
every handler becomes a pure function from the collaborator behaviour and the
request to the sequence of observable events it produces.

Numeric request fields (`speed`, `pitch`) are Python floats in the source; they
are modelled as exact rationals, which is faithful for the range checks the
code performs (the bounds 0.25, 4.0, -20.0, 20.0 are exactly representable).
Audio payloads are byte sequences, modelled as lists of naturals below 256.
-/

set_option autoImplicit false

namespace TTSServer

/-- Python's `str.split('-')` (single-character separator, empty segments kept,
the empty string yielding one empty segment), on the character list of the
string.  Structural recursion so that it evaluates in the kernel. -/
def split_on_dash : List Char → List (List Char)
  | [] => [[]]
  | c :: rest =>
    let r := split_on_dash rest
    if c = '-' then [] :: r
    else
      match r with
      | g :: gs => (c :: g) :: gs
      | [] => [[c]]

/-- Python's `str.lower()` restricted to the ASCII range, which is all the
source applies it to (locale codes). -/
def lower_str (s : String) : String := String.mk (s.toList.map Char.toLower)

/-- Python's `str.strip()` (drop leading and trailing whitespace), on the
character list of the string. -/
def strip_chars (s : List Char) : List Char :=
  (((s.dropWhile Char.isWhitespace).reverse).dropWhile Char.isWhitespace).reverse

/-- Python's `str.strip()` on strings. -/
def strip_str (s : String) : String := String.mk (strip_chars s.toList)

/-- `extract_language_code` from `main.py`: split the voice name on `-`; if at
least two segments exist, return the first two joined by `-`; otherwise return
the fallback literal `"en-US"`. -/
def extract_language_code (voice_name : String) : String :=
  match split_on_dash voice_name.toList with
  | p0 :: p1 :: _ => String.mk (p0 ++ '-' :: p1)
  | _ => "en-US"

/-- The `supported_languages` list from `get_supported_voices`. -/
def supported_languages : List String := ["en", "ru", "he"]

/-- `language_code.split('-')[0].lower()` from `get_supported_voices`. -/
def lang_head (language_code : String) : String :=
  lower_str (String.mk ((split_on_dash language_code.toList).headD []))

/-- One entry of the Google voice catalog, as consumed by
`get_supported_voices`: a name, one or more locale codes, the name of the
SSML gender enum value, and the natural sample rate in Hz. -/
structure GoogleVoice where
  name : String
  language_codes : List String
  ssml_gender : String
  natural_sample_rate_hertz : Nat
  deriving DecidableEq, Repr

/-- The `VoiceInfo` response model from `main.py`. -/
structure VoiceInfo where
  name : String
  language_code : String
  gender : String
  natural_sample_rate : Nat
  deriving DecidableEq, Repr

/-- The `VoiceInfo(...)` construction inside the loop of
`get_supported_voices`, for a given matching locale code. -/
def mk_voice_info (voice : GoogleVoice) (language_code : String) : VoiceInfo :=
  { name := voice.name, language_code := language_code, gender := voice.ssml_gender,
    natural_sample_rate := voice.natural_sample_rate_hertz }

/-- The inner loop of `get_supported_voices`: walk the locale codes of one
voice and return the first whose 2-letter head (lower-cased) is in
`supported_languages`; the `break` in the source is the short-circuit here. -/
def first_matching_code : List String → Option String
  | [] => none
  | c :: rest =>
    if lang_head c ∈ supported_languages then some c else first_matching_code rest

/-- The outer loop of `get_supported_voices`: per catalog voice, emit one
`VoiceInfo` for the first matching locale code, or nothing. -/
def filter_voices : List GoogleVoice → List VoiceInfo
  | [] => []
  | v :: rest =>
    match first_matching_code v.language_codes with
    | some c => mk_voice_info v c :: filter_voices rest
    | none => filter_voices rest

/-- The three failure buckets the endpoints distinguish, in the order of the
`except` clauses: `gcp_exceptions.InvalidArgument`, any other
`gcp_exceptions.GoogleAPICallError`, and any other exception. -/
inductive GcpError where
  | invalidArgument (msg : String)
  | apiCallError (msg : String)
  | otherError (msg : String)
  deriving DecidableEq, Repr

/-- The argument bundle both endpoints pass to
`tts_client.synthesize_speech`: the synthesis input text, the voice selection
(derived language code plus exact voice name) and the audio config (MP3
encoding, speaking rate, pitch). -/
structure SynthCall where
  input_text : String
  language_code : String
  voice_name : String
  audio_encoding : String
  speaking_rate : ℚ
  pitch : ℚ
  deriving DecidableEq, Repr

/-- Behaviour of the external Google TTS client for the duration of one call:
the outcome of `list_voices()` and the outcome of `synthesize_speech(...)` as
a function of the arguments.  Audio payloads are byte lists. -/
structure TTSClient where
  voices_result : Except GcpError (List GoogleVoice)
  synth_result : SynthCall → Except GcpError (List Nat)

/-- `get_supported_voices` from `main.py`.  With no client it returns `[]`;
otherwise it calls `list_voices()` under a `try` whose `except Exception`
handler logs and returns `[]`, so a listing failure also yields `[]`. -/
def get_supported_voices (tts_client : Option TTSClient) : List VoiceInfo :=
  match tts_client with
  | none => []
  | some client =>
    match client.voices_result with
    | .ok voices_response => filter_voices voices_response
    | .error _ => []

/-- A validated synthesis request: the fields of the `TTSRequest` model. -/
structure TTSRequest where
  text : String
  voice : String
  speed : ℚ
  pitch : ℚ
  deriving DecidableEq, Repr

/-- What a handler surfaces to the HTTP layer: a streaming audio response, a
base64 JSON envelope, a voice list, or an `HTTPException` with a status code
and a detail string. -/
inductive HandlerResult where
  | streamResponse (body : List Nat) (media_type : String)
      (content_disposition : String) (content_length : String)
  | base64Response (audio_base64 : String) (content_type : String) (size : Nat)
  | voicesResponse (voices : List VoiceInfo)
  | httpError (status_code : Nat) (detail : String)
  deriving DecidableEq, Repr

/-- The HTTP status code a handler result carries when it is an error. -/
def HandlerResult.error_status : HandlerResult → Option Nat
  | .httpError code _ => some code
  | _ => none

/-- The `response` snapshot passed to `log_activity`: a dict with a single
`size` key on success, or a single `error` key on failure. -/
inductive RespSnapshot where
  | size (n : Nat)
  | error (msg : String)
  deriving DecidableEq, Repr

/-- The arguments of one `log_activity` invocation, as issued by the
endpoints (the `user` argument is left at its default `None` there). -/
structure LogEntry where
  service_name : String
  activity_type : String
  request : TTSRequest
  response : RespSnapshot
  status : String
  deriving DecidableEq, Repr

/-- An observable event of a handler run: an Activity Logger invocation or
the surfacing of the HTTP result (return value or raised `HTTPException`). -/
inductive Event where
  | log (entry : LogEntry)
  | surface (result : HandlerResult)
  deriving DecidableEq, Repr

/-- Whether an event is an Activity Logger invocation. -/
def Event.isLog : Event → Bool
  | .log _ => true
  | .surface _ => false

/-- The number of Activity Logger invocations in a handler run. -/
def num_logs (events : List Event) : Nat := (events.filter Event.isLog).length

/-- The surfaced HTTP result of a handler run (the first `surface` event). -/
def surfaced : List Event → Option HandlerResult
  | [] => none
  | .surface r :: _ => some r
  | .log _ :: rest => surfaced rest

/-- The first Activity Logger invocation of a handler run. -/
def first_log : List Event → Option LogEntry
  | [] => none
  | .log entry :: _ => some entry
  | .surface _ :: rest => first_log rest

/-- The call both endpoints assemble for `tts_client.synthesize_speech`. -/
def synth_call (request : TTSRequest) : SynthCall :=
  { input_text := request.text,
    language_code := extract_language_code request.voice,
    voice_name := request.voice,
    audio_encoding := "MP3",
    speaking_rate := request.speed,
    pitch := request.pitch }

/-- The `POST /tts` handler `synthesize_speech` from `main.py`, as the event
trace it produces.  No client: raise 503 before the `try`.  Success: build the
`StreamingResponse`, await `log_activity` with status `success` and a size
snapshot, then return.  Each failure bucket: await `log_activity` with the
corresponding status and an error-message snapshot, then raise the mapped
`HTTPException`. -/
def synthesize_speech (tts_client : Option TTSClient) (request : TTSRequest) : List Event :=
  match tts_client with
  | none =>
    [.surface (.httpError 503 "TTS client not initialized. Check Google Cloud credentials.")]
  | some client =>
    match client.synth_result (synth_call request) with
    | .ok audio =>
      [.log { service_name := "tts-server", activity_type := "tts", request := request,
              response := .size audio.length, status := "success" },
       .surface (.streamResponse audio "audio/mpeg" "attachment; filename=speech.mp3"
          (toString audio.length))]
    | .error (.invalidArgument m) =>
      [.log { service_name := "tts-server", activity_type := "tts", request := request,
              response := .error m, status := "invalid_argument" },
       .surface (.httpError 400 ("Invalid voice or parameters: " ++ m))]
    | .error (.apiCallError m) =>
      [.log { service_name := "tts-server", activity_type := "tts", request := request,
              response := .error m, status := "api_error" },
       .surface (.httpError 503 ("Google TTS API error: " ++ m))]
    | .error (.otherError m) =>
      [.log { service_name := "tts-server", activity_type := "tts", request := request,
              response := .error m, status := "error" },
       .surface (.httpError 500 "Text-to-speech synthesis failed")]

/-- The base64 alphabet used by Python's `base64.b64encode`. -/
def base64_alphabet : List Char :=
  "ABCDEFGHIJKLMNOPQRSTUVWXYZabcdefghijklmnopqrstuvwxyz0123456789+/".toList

/-- The character encoding one 6-bit group. -/
def b64char (n : Nat) : Char := base64_alphabet.getD n '='

/-- The 6-bit group a base64 character stands for. -/
def b64val (c : Char) : Nat := base64_alphabet.indexOf c

/-- Standard base64 encoding of a byte sequence (Python's
`base64.b64encode`), three bytes to four characters, `=`-padded. -/
def b64encode : List Nat → List Char
  | [] => []
  | [a] => [b64char (a / 4), b64char (a % 4 * 16), '=', '=']
  | [a, b] => [b64char (a / 4), b64char (a % 4 * 16 + b / 16), b64char (b % 16 * 4), '=']
  | a :: b :: c :: rest =>
    b64char (a / 4) :: b64char (a % 4 * 16 + b / 16) ::
      b64char (b % 16 * 4 + c / 64) :: b64char (c % 64) :: b64encode rest

/-- Standard base64 decoding (Python's `base64.b64decode`) on well-padded
input, four characters to three bytes, a final `=`-padded group to one or two
bytes. -/
def b64decode : List Char → List Nat
  | w :: x :: y :: z :: rest =>
    if z = '=' then
      if y = '=' then [b64val w * 4 + b64val x / 16]
      else [b64val w * 4 + b64val x / 16, b64val x % 16 * 16 + b64val y / 4]
    else
      (b64val w * 4 + b64val x / 16) ::
        (b64val x % 16 * 16 + b64val y / 4) ::
        (b64val y % 4 * 64 + b64val z) :: b64decode rest
  | _ => []

/-- The `POST /tts/base64` handler `synthesize_speech_base64` from `main.py`,
as the event trace it produces.  Same shape as `synthesize_speech`, but the
success result is the `Base64TTSResponse` envelope: the base64 encoding of
the audio bytes decoded to an ASCII string, content type `audio/mpeg`, and
`size` the length of the raw (pre-encoding) bytes. -/
def synthesize_speech_base64 (tts_client : Option TTSClient) (request : TTSRequest) :
    List Event :=
  match tts_client with
  | none =>
    [.surface (.httpError 503 "TTS client not initialized. Check Google Cloud credentials.")]
  | some client =>
    match client.synth_result (synth_call request) with
    | .ok audio =>
      [.log { service_name := "tts-server", activity_type := "tts_base64", request := request,
              response := .size audio.length, status := "success" },
       .surface (.base64Response (String.mk (b64encode audio)) "audio/mpeg" audio.length)]
    | .error (.invalidArgument m) =>
      [.log { service_name := "tts-server", activity_type := "tts_base64", request := request,
              response := .error m, status := "invalid_argument" },
       .surface (.httpError 400 ("Invalid voice or parameters: " ++ m))]
    | .error (.apiCallError m) =>
      [.log { service_name := "tts-server", activity_type := "tts_base64", request := request,
              response := .error m, status := "api_error" },
       .surface (.httpError 503 ("Google TTS API error: " ++ m))]
    | .error (.otherError m) =>
      [.log { service_name := "tts-server", activity_type := "tts_base64", request := request,
              response := .error m, status := "error" },
       .surface (.httpError 500 "Text-to-speech base64 synthesis failed")]

/-- The `GET /voices` handler `list_voices` from `main.py`.  No client: raise
503.  Otherwise it calls `get_supported_voices()` under a `try` with
`except gcp_exceptions.GoogleAPICallError` (503) and `except Exception` (500)
clauses; since `get_supported_voices` catches every exception internally and
returns a list, those clauses are unreachable and the handler returns the
list (warning internally when it is empty). -/
def list_voices_endpoint (tts_client : Option TTSClient) : HandlerResult :=
  match tts_client with
  | none => .httpError 503 "TTS client not initialized. Check Google Cloud credentials."
  | some client => .voicesResponse (get_supported_voices (some client))

/-- A single-field validation failure, in the style of the pydantic error
types: a missing required field, a string length bound violation, or a
numeric range violation. -/
inductive FieldError where
  | missing (field : String)
  | too_short (field : String)
  | too_long (field : String)
  | out_of_range (field : String)
  deriving DecidableEq, Repr

/-- Validation of the `text` field as the deployed model performs it:
`Field(..., min_length=1, max_length=5000)`, required, length bounds on the
raw string, no trimming.  (The model's `validate_text_field`, wired through
a `__get_validators__` override, is not invoked by the model-field validation
path — see `validate_tts_request_spec` and C4.) -/
def validate_text : Option String → Except FieldError String
  | none => .error (.missing "text")
  | some t =>
    if t.length < 1 then .error (.too_short "text")
    else if 5000 < t.length then .error (.too_long "text")
    else .ok t

/-- Validation of the `voice` field: `Field(...)`, required, no constraint. -/
def validate_voice : Option String → Except FieldError String
  | none => .error (.missing "voice")
  | some v => .ok v

/-- Validation of the `speed` field: default `1.0`, bounds `ge=0.25`,
`le=4.0`. -/
def validate_speed : Option ℚ → Except FieldError ℚ
  | none => .ok 1.0
  | some s =>
    if s < 0.25 then .error (.out_of_range "speed")
    else if 4.0 < s then .error (.out_of_range "speed")
    else .ok s

/-- Validation of the `pitch` field: default `0.0`, bounds `ge=-20.0`,
`le=20.0`. -/
def validate_pitch : Option ℚ → Except FieldError ℚ
  | none => .ok 0.0
  | some p =>
    if p < -20.0 then .error (.out_of_range "pitch")
    else if 20.0 < p then .error (.out_of_range "pitch")
    else .ok p

/-- Validation of a raw `TTSRequest` body as the code performs it: the four
field constraints of the `TTSRequest` model, an absent optional field taking
its declared default.  (pydantic reports all failing fields at once; only the
accept/reject outcome and the accepted value matter here, so the first
failure is reported.) -/
def validate_tts_request (text voice : Option String) (speed pitch : Option ℚ) :
    Except FieldError TTSRequest := do
  let t ← validate_text text
  let v ← validate_voice voice
  let s ← validate_speed speed
  let p ← validate_pitch pitch
  .ok { text := t, voice := v, speed := s, pitch := p }

/-- The validation the spec describes (and that the model's dead
`validate_text_field` was written to perform): as `validate_tts_request`, but
`text` is stripped of leading and trailing whitespace first and the length
bounds apply to the stripped text, so blank or whitespace-only text is
rejected.  Stated only to compare with `validate_tts_request`. -/
def validate_tts_request_spec (text voice : Option String) (speed pitch : Option ℚ) :
    Except FieldError TTSRequest := do
  let t ← validate_text (text.map strip_str)
  let v ← validate_voice voice
  let s ← validate_speed speed
  let p ← validate_pitch pitch
  .ok { text := t, voice := v, speed := s, pitch := p }

/-- One row of `public.activity_log` as inserted by `log_activity`: the five
string arguments, the optional user and the reporting host name, with the two
snapshots already serialized to JSON text. -/
structure ActivityRow where
  service_name : String
  activity_type : String
  request_json : String
  response_json : String
  status : String
  user : Option String
  host : String
  deriving DecidableEq, Repr

/-- Behaviour of the acquired pool connection: the outcome of the single
`INSERT` statement `log_activity` executes. -/
structure DBPool where
  insert : ActivityRow → Except String Unit

/-- The environment a `log_activity` call runs in: the global `db_pool`
(possibly uninitialized), the host name `socket.gethostname()` resolves to,
and the behaviour of `json.dumps` on the two snapshots (serialization may
fail, e.g. on a non-serializable value). -/
structure LogEnv where
  db_pool : Option DBPool
  hostname : String
  dumps_req : TTSRequest → Except String String
  dumps_resp : RespSnapshot → Except String String

/-- What one `log_activity` call amounted to: skipped with a warning because
the pool is uninitialized, one row inserted, or an internal failure caught
and logged. -/
inductive LogOutcome where
  | skipped
  | inserted (row : ActivityRow)
  | swallowed (err : String)
  deriving DecidableEq, Repr

/-- The body of the `try` block of `log_activity`: serialize the two
snapshots, build the row, run the insert.  Any step may fail. -/
def attempt_insert (env : LogEnv) (pool : DBPool) (service_name activity_type : String)
    (request : TTSRequest) (response : RespSnapshot) (status : String)
    (user : Option String) (host : String) : Except String ActivityRow := do
  let request_json ← env.dumps_req request
  let response_json ← env.dumps_resp response
  let row : ActivityRow :=
    { service_name := service_name, activity_type := activity_type,
      request_json := request_json, response_json := response_json,
      status := status, user := user, host := host }
  let _ ← pool.insert row
  .ok row

/-- `log_activity` from `main.py`.  With `db_pool` unset it warns and
returns; otherwise it resolves the host name and runs the serialize-and-insert
body under `try`, with `except Exception` logging and swallowing any failure.
The codomain is `Except` to make "the call itself never raises" a statement
rather than a typing accident: the result is `.ok` for every behaviour of the
pool and the serializer. -/
def log_activity (env : LogEnv) (service_name activity_type : String)
    (request : TTSRequest) (response : RespSnapshot) (status : String)
    (user : Option String) : Except String LogOutcome :=
  match env.db_pool with
  | none => .ok .skipped
  | some pool =>
    match attempt_insert env pool service_name activity_type request response status user
        env.hostname with
    | .ok row => .ok (.inserted row)
    | .error e => .ok (.swallowed e)

/-! Concrete fixtures used by witness theorems. -/

/-- A well-formed request body (the spec's example request). -/
def demo_request : TTSRequest :=
  { text := "Hello", voice := "en-US-Wavenet-A", speed := 1.0, pitch := 0.0 }

/-- A client whose synthesis always succeeds with the bytes of `"Man"`. -/
def ok_client : TTSClient :=
  { voices_result := .ok [], synth_result := fun _ => .ok [77, 97, 110] }

/-- A client whose synthesis is rejected with `InvalidArgument`. -/
def invalid_client : TTSClient :=
  { voices_result := .ok [], synth_result := fun _ => .error (.invalidArgument "bad voice") }

/-- A client whose every call fails with a generic `GoogleAPICallError`. -/
def api_error_client : TTSClient :=
  { voices_result := .error (.apiCallError "quota exceeded"),
    synth_result := fun _ => .error (.apiCallError "quota exceeded") }

/-- A client whose every call fails with an unclassified exception. -/
def crash_client : TTSClient :=
  { voices_result := .error (.otherError "boom"),
    synth_result := fun _ => .error (.otherError "boom") }

/-- A catalog voice carrying a non-matching and a matching locale code. -/
def demo_voice : GoogleVoice :=
  { name := "multi-voice", language_codes := ["fr-FR", "en-GB"],
    ssml_gender := "FEMALE", natural_sample_rate_hertz := 24000 }

/-- A catalog voice with no matching locale code. -/
def unmatched_voice : GoogleVoice :=
  { name := "de-voice", language_codes := ["de-DE"],
    ssml_gender := "MALE", natural_sample_rate_hertz := 24000 }

/-- A client whose catalog contains only the unmatched voice. -/
def unmatched_client : TTSClient :=
  { voices_result := .ok [unmatched_voice], synth_result := fun _ => .ok [] }

/-- The emission criterion of claim C6 read literally: the lowercased first
two characters of the locale code form a string in the accepted set.  Stated
only to compare with the code's criterion, which lowercases the whole first
hyphen-delimited segment (`lang_head`); the two differ when that segment is
longer than two letters. -/
def two_letter_head_accepted (language_code : String) : Prop :=
  lower_str (String.mk (language_code.toList.take 2)) ∈ supported_languages

/-- A catalog voice whose only locale code is `heb-IL`: its 2-letter prefix
`he` is in the accepted set, but its first hyphen-delimited segment `heb` is
not. -/
def heb_voice : GoogleVoice :=
  { name := "heb-voice", language_codes := ["heb-IL"],
    ssml_gender := "FEMALE", natural_sample_rate_hertz := 22050 }

/-- A pool connection whose insert always fails. -/
def failing_pool : DBPool := { insert := fun _ => .error "insert failed" }

/-- A logging environment with a working serializer and a failing insert. -/
def failing_env : LogEnv :=
  { db_pool := some failing_pool, hostname := "host-a",
    dumps_req := fun _ => .ok "rq", dumps_resp := fun _ => .ok "rs" }

/-- A logging environment with an uninitialized pool. -/
def no_pool_env : LogEnv :=
  { db_pool := none, hostname := "host-a",
    dumps_req := fun _ => .ok "rq", dumps_resp := fun _ => .ok "rs" }

/-! Helper lemmas. -/

theorem base64_alphabet_len : base64_alphabet.length = 64 := by decide

theorem b64val_b64char : ∀ n, n < 64 → b64val (b64char n) = n := by decide

theorem b64char_ne_pad : ∀ n, n < 64 → b64char n ≠ '=' := by decide

theorem b64char_lt128_small : ∀ n, n < 64 → (b64char n).toNat < 128 := by decide

theorem b64char_lt128 (n : Nat) : (b64char n).toNat < 128 := by
  rcases Nat.lt_or_ge n 64 with hn | hn
  · exact b64char_lt128_small n hn
  · have h : b64char n = '=' := by
      unfold b64char
      rw [List.getD_eq_default]
      rw [base64_alphabet_len]
      exact hn
    rw [h]
    decide

/-- Base64 round-trip on byte sequences. -/
theorem b64_roundtrip : ∀ (l : List Nat), (∀ x ∈ l, x < 256) → b64decode (b64encode l) = l
  | [], _ => rfl
  | [a], h => by
    have ha : a < 256 := h a (by simp)
    have h0 : b64val (b64char (a / 4)) = a / 4 := b64val_b64char _ (by omega)
    have h1 : b64val (b64char (a % 4 * 16)) = a % 4 * 16 := b64val_b64char _ (by omega)
    simp [b64encode, b64decode, h0, h1]
    omega
  | [a, b], h => by
    have ha : a < 256 := h a (by simp)
    have hb : b < 256 := h b (by simp)
    have h0 : b64val (b64char (a / 4)) = a / 4 := b64val_b64char _ (by omega)
    have h1 : b64val (b64char (a % 4 * 16 + b / 16)) = a % 4 * 16 + b / 16 :=
      b64val_b64char _ (by omega)
    have h2 : b64val (b64char (b % 16 * 4)) = b % 16 * 4 := b64val_b64char _ (by omega)
    have hy : b64char (b % 16 * 4) ≠ '=' := b64char_ne_pad _ (by omega)
    simp [b64encode, b64decode, h0, h1, h2, hy]
    constructor
    · omega
    · omega
  | a :: b :: c :: rest, h => by
    have ha : a < 256 := h a (by simp)
    have hb : b < 256 := h b (by simp)
    have hc : c < 256 := h c (by simp)
    have ih : b64decode (b64encode rest) = rest :=
      b64_roundtrip rest (fun x hx => h x (by simp [hx]))
    have hz : b64char (c % 64) ≠ '=' := b64char_ne_pad _ (by omega)
    have h0 : b64val (b64char (a / 4)) = a / 4 := b64val_b64char _ (by omega)
    have h1 : b64val (b64char (a % 4 * 16 + b / 16)) = a % 4 * 16 + b / 16 :=
      b64val_b64char _ (by omega)
    have h2 : b64val (b64char (b % 16 * 4 + c / 64)) = b % 16 * 4 + c / 64 :=
      b64val_b64char _ (by omega)
    have h3 : b64val (b64char (c % 64)) = c % 64 := b64val_b64char _ (by omega)
    simp [b64encode, b64decode, hz, h0, h1, h2, h3, ih]
    refine ⟨by omega, by omega, by omega⟩

/-- Every character produced by the encoder is ASCII. -/
theorem b64encode_ascii : ∀ (l : List Nat), ∀ ch ∈ b64encode l, ch.toNat < 128
  | [], _, hch => by simp [b64encode] at hch
  | [a], ch, hch => by
    simp [b64encode] at hch
    rcases hch with h | h | h
    · rw [h]; exact b64char_lt128 _
    · rw [h]; exact b64char_lt128 _
    · rw [h]; decide
  | [a, b], ch, hch => by
    simp [b64encode] at hch
    rcases hch with h | h | h | h
    · rw [h]; exact b64char_lt128 _
    · rw [h]; exact b64char_lt128 _
    · rw [h]; exact b64char_lt128 _
    · rw [h]; decide
  | a :: b :: c :: rest, ch, hch => by
    simp only [b64encode, List.mem_cons] at hch
    rcases hch with h | h | h | h | h
    · rw [h]; exact b64char_lt128 _
    · rw [h]; exact b64char_lt128 _
    · rw [h]; exact b64char_lt128 _
    · rw [h]; exact b64char_lt128 _
    · exact b64encode_ascii rest ch h

theorem first_matching_code_isSome (codes : List String) :
    (first_matching_code codes).isSome = true ↔
      ∃ c ∈ codes, lang_head c ∈ supported_languages := by
  induction codes with
  | nil => simp [first_matching_code]
  | cons c rest ih =>
    by_cases hc : lang_head c ∈ supported_languages
    · simp [first_matching_code, hc]
    · simp [first_matching_code, hc, ih]

theorem first_matching_code_app (pre : List String) (c : String) (post : List String)
    (hpre : ∀ c' ∈ pre, lang_head c' ∉ supported_languages)
    (hc : lang_head c ∈ supported_languages) :
    first_matching_code (pre ++ c :: post) = some c := by
  induction pre with
  | nil => simp [first_matching_code, hc]
  | cons p rest ih =>
    have hp : lang_head p ∉ supported_languages := hpre p (by simp)
    simp only [List.cons_append, first_matching_code, if_neg hp]
    exact ih fun c' h' => hpre c' (by simp [h'])

theorem filter_voices_eq_filterMap (voices : List GoogleVoice) :
    filter_voices voices =
      voices.filterMap fun v => (first_matching_code v.language_codes).map (mk_voice_info v) := by
  induction voices with
  | nil => rfl
  | cons v rest ih =>
    cases hm : first_matching_code v.language_codes <;>
      simp [filter_voices, hm, ih, List.filterMap_cons]

/-! Claim theorems. -/

/-- C5: `extract_language_code` is a pure total function that splits the
voice identifier on `-`; with at least two segments it returns the first two
segments joined by `-`, otherwise the fixed fallback literal `en-US`. -/
theorem extract_language_code_spec (s : String) (p0 p1 : List Char)
    (rest : List (List Char)) :
    (split_on_dash s.toList = p0 :: p1 :: rest →
      extract_language_code s = String.mk p0 ++ "-" ++ String.mk p1) ∧
    ((split_on_dash s.toList).length < 2 → extract_language_code s = "en-US") := by
  constructor
  · intro h
    unfold extract_language_code
    rw [h]
    apply String.ext
    simp [String.data_append]
  · intro h
    unfold extract_language_code
    cases hs : split_on_dash s.toList with
    | nil => rfl
    | cons x t =>
      cases t with
      | nil => rfl
      | cons y r =>
        rw [hs] at h
        simp at h
        omega

/-- C5 witness: the derivation at `en-US-Wavenet-A` (≥2 segments) and at `x`
(<2 segments). -/
theorem extract_language_code_spec_witness :
    extract_language_code "en-US-Wavenet-A" = String.mk ['e', 'n'] ++ "-" ++ String.mk ['U', 'S'] ∧
    extract_language_code "x" = "en-US" :=
  ⟨(extract_language_code_spec "en-US-Wavenet-A" ['e', 'n'] ['U', 'S']
      [['W', 'a', 'v', 'e', 'n', 'e', 't'], ['A']]).1 (by decide),
   (extract_language_code_spec "x" [] [] []).2 (by decide)⟩

/-- C6 counterexample: a voice whose only locale code is `heb-IL`.  Its
case-insensitive 2-letter prefix `he` is in the accepted set, so the claim as
stated says the voice is emitted; the code compares the whole first
hyphen-delimited segment `heb` against the set and emits nothing. -/
theorem voice_filter_two_letter_counterexample :
    two_letter_head_accepted "heb-IL" ∧
    "heb-IL" ∈ heb_voice.language_codes ∧
    filter_voices [heb_voice] = [] := by
  refine ⟨by unfold two_letter_head_accepted; decide, by decide, by decide⟩

/-- C6 (amended: a voice matches when the lowercased first hyphen-delimited
segment of one of its locale codes is in the fixed set, rather than its
2-letter prefix): the filter emits at most one `VoiceInfo` per voice, a voice
is emitted iff some locale code matches, the emitted entry uses the first
matching locale code (short-circuit), catalog order is preserved, and the
`fr-FR`/`en-GB` example yields exactly one entry using `en-GB`. -/
theorem voice_filter_spec (voices : List GoogleVoice) :
    (filter_voices voices =
      voices.filterMap fun v => (first_matching_code v.language_codes).map (mk_voice_info v)) ∧
    (filter_voices voices).length ≤ voices.length ∧
    (∀ codes : List String, (first_matching_code codes).isSome = true ↔
      ∃ c ∈ codes, lang_head c ∈ supported_languages) ∧
    (∀ (pre : List String) (c : String) (post : List String),
      (∀ c' ∈ pre, lang_head c' ∉ supported_languages) →
      lang_head c ∈ supported_languages →
      first_matching_code (pre ++ c :: post) = some c) ∧
    filter_voices [demo_voice] =
      [{ name := "multi-voice", language_code := "en-GB", gender := "FEMALE",
         natural_sample_rate := 24000 }] := by
  refine ⟨filter_voices_eq_filterMap voices, ?_, first_matching_code_isSome,
    first_matching_code_app, by decide⟩
  rw [filter_voices_eq_filterMap voices]
  exact List.length_filterMap_le _ _

/-- C6 witness: the general statement applied to the example catalog, with
the first-match clause discharged at `fr-FR`/`en-GB`. -/
theorem voice_filter_spec_witness :
    filter_voices [demo_voice] =
      [demo_voice].filterMap
        (fun v => (first_matching_code v.language_codes).map (mk_voice_info v)) ∧
    first_matching_code (["fr-FR"] ++ "en-GB" :: []) = some "en-GB" :=
  ⟨(voice_filter_spec [demo_voice]).1,
   (voice_filter_spec [demo_voice]).2.2.2.1 ["fr-FR"] "en-GB" []
     (by decide) (by decide)⟩

/-- C10: `get_supported_voices` never propagates an exception to its caller:
with no client it returns the empty list, a failed listing is caught
internally and yields the empty list, and through this function's result a
failed listing is indistinguishable from a successful listing with no
matching voices. -/
theorem get_supported_voices_total (tts_client : Option TTSClient) :
    (tts_client = none → get_supported_voices tts_client = []) ∧
    (∀ client e, tts_client = some client → client.voices_result = .error e →
      get_supported_voices tts_client = []) ∧
    (∀ (failed fine : TTSClient) (e : GcpError) (voices : List GoogleVoice),
      failed.voices_result = .error e → fine.voices_result = .ok voices →
      filter_voices voices = [] →
      get_supported_voices (some failed) = get_supported_voices (some fine)) := by
  refine ⟨?_, ?_, ?_⟩
  · intro h
    rw [h]
    rfl
  · intro client e h he
    rw [h]
    simp [get_supported_voices, he]
  · intro failed fine e voices hf ho hfil
    simp [get_supported_voices, hf, ho, hfil]

/-- C10 witness: a listing failure yields the empty list and is
indistinguishable from a catalog with no matching voices. -/
theorem get_supported_voices_total_witness :
    get_supported_voices (some api_error_client) = [] ∧
    get_supported_voices (some api_error_client) =
      get_supported_voices (some unmatched_client) :=
  ⟨(get_supported_voices_total (some api_error_client)).2.1 api_error_client
      (.apiCallError "quota exceeded") rfl rfl,
   (get_supported_voices_total (some api_error_client)).2.2 api_error_client
      unmatched_client (.apiCallError "quota exceeded") [unmatched_voice] rfl rfl
      (by decide)⟩

/-- C3 counterexample: with the client initialized but the Google voice
listing failing with a `GoogleAPICallError`, `GET /voices` returns a
successful empty voice list, not a 503: the exception is swallowed inside
`get_supported_voices`, so the endpoint's API-error branch never fires. -/
theorem voices_api_error_counterexample :
    list_voices_endpoint (some api_error_client) = .voicesResponse [] ∧
    (list_voices_endpoint (some api_error_client)).error_status = none :=
  ⟨rfl, rfl⟩

/-- C3 (amended: `GET /voices` fails with 503 when the synthesis client is
absent; when the external listing raises — API error or otherwise — the
exception is swallowed by `get_supported_voices` and the endpoint returns a
successful, possibly empty, voice list, so the 503/500 error branches for
listing failures are unreachable). -/
theorem voices_endpoint_spec (tts_client : Option TTSClient) :
    (tts_client = none → list_voices_endpoint tts_client =
      .httpError 503 "TTS client not initialized. Check Google Cloud credentials.") ∧
    (∀ client e, tts_client = some client → client.voices_result = .error e →
      list_voices_endpoint tts_client = .voicesResponse []) ∧
    (∀ client voices, tts_client = some client → client.voices_result = .ok voices →
      list_voices_endpoint tts_client = .voicesResponse (filter_voices voices)) := by
  refine ⟨?_, ?_, ?_⟩
  · intro h
    rw [h]
    rfl
  · intro client e h he
    rw [h]
    simp [list_voices_endpoint, get_supported_voices, he]
  · intro client voices h ho
    rw [h]
    simp [list_voices_endpoint, get_supported_voices, ho]

/-- C3 witness: the 503 with the client absent, and the successful empty
list on a listing failure. -/
theorem voices_endpoint_spec_witness :
    list_voices_endpoint none =
      .httpError 503 "TTS client not initialized. Check Google Cloud credentials." ∧
    list_voices_endpoint (some api_error_client) = .voicesResponse [] :=
  ⟨(voices_endpoint_spec none).1 rfl,
   (voices_endpoint_spec (some api_error_client)).2.1 api_error_client
      (.apiCallError "quota exceeded") rfl rfl⟩

/-- C1: with the synthesis client initialized, each `POST /tts` and
`POST /tts/base64` call triggers exactly one Activity Logger write, whose
`activity_type` matches the endpoint; on success the write has status
`success` and a size snapshot, on the three failure buckets it has status
`invalid_argument` / `api_error` / `error` with an error-message snapshot,
and in every case the write precedes the surfaced HTTP result in the event
trace. -/
theorem synthesis_activity_logging (client : TTSClient) (request : TTSRequest) :
    (num_logs (synthesize_speech (some client) request) = 1 ∧
     num_logs (synthesize_speech_base64 (some client) request) = 1) ∧
    (∀ audio, client.synth_result (synth_call request) = .ok audio →
      synthesize_speech (some client) request =
        [.log { service_name := "tts-server", activity_type := "tts", request := request,
                response := .size audio.length, status := "success" },
         .surface (.streamResponse audio "audio/mpeg" "attachment; filename=speech.mp3"
            (toString audio.length))] ∧
      synthesize_speech_base64 (some client) request =
        [.log { service_name := "tts-server", activity_type := "tts_base64",
                request := request, response := .size audio.length, status := "success" },
         .surface (.base64Response (String.mk (b64encode audio)) "audio/mpeg"
            audio.length)]) ∧
    (∀ m, client.synth_result (synth_call request) = .error (.invalidArgument m) →
      synthesize_speech (some client) request =
        [.log { service_name := "tts-server", activity_type := "tts", request := request,
                response := .error m, status := "invalid_argument" },
         .surface (.httpError 400 ("Invalid voice or parameters: " ++ m))] ∧
      synthesize_speech_base64 (some client) request =
        [.log { service_name := "tts-server", activity_type := "tts_base64",
                request := request, response := .error m, status := "invalid_argument" },
         .surface (.httpError 400 ("Invalid voice or parameters: " ++ m))]) ∧
    (∀ m, client.synth_result (synth_call request) = .error (.apiCallError m) →
      synthesize_speech (some client) request =
        [.log { service_name := "tts-server", activity_type := "tts", request := request,
                response := .error m, status := "api_error" },
         .surface (.httpError 503 ("Google TTS API error: " ++ m))] ∧
      synthesize_speech_base64 (some client) request =
        [.log { service_name := "tts-server", activity_type := "tts_base64",
                request := request, response := .error m, status := "api_error" },
         .surface (.httpError 503 ("Google TTS API error: " ++ m))]) ∧
    (∀ m, client.synth_result (synth_call request) = .error (.otherError m) →
      synthesize_speech (some client) request =
        [.log { service_name := "tts-server", activity_type := "tts", request := request,
                response := .error m, status := "error" },
         .surface (.httpError 500 "Text-to-speech synthesis failed")] ∧
      synthesize_speech_base64 (some client) request =
        [.log { service_name := "tts-server", activity_type := "tts_base64",
                request := request, response := .error m, status := "error" },
         .surface (.httpError 500 "Text-to-speech base64 synthesis failed")]) := by
  refine ⟨?_, ?_, ?_, ?_, ?_⟩
  · cases hr : client.synth_result (synth_call request) with
    | ok audio =>
      simp [synthesize_speech, synthesize_speech_base64, hr, num_logs, Event.isLog]
    | error e =>
      cases e <;>
        simp [synthesize_speech, synthesize_speech_base64, hr, num_logs, Event.isLog]
  · intro audio h
    exact ⟨by simp [synthesize_speech, h], by simp [synthesize_speech_base64, h]⟩
  · intro m h
    exact ⟨by simp [synthesize_speech, h], by simp [synthesize_speech_base64, h]⟩
  · intro m h
    exact ⟨by simp [synthesize_speech, h], by simp [synthesize_speech_base64, h]⟩
  · intro m h
    exact ⟨by simp [synthesize_speech, h], by simp [synthesize_speech_base64, h]⟩

/-- C1 witness: the success trace and the unclassified-failure trace at
concrete clients, each a single log write followed by the surfaced result. -/
theorem synthesis_activity_logging_witness :
    synthesize_speech (some ok_client) demo_request =
      [.log { service_name := "tts-server", activity_type := "tts", request := demo_request,
              response := .size 3, status := "success" },
       .surface (.streamResponse [77, 97, 110] "audio/mpeg"
          "attachment; filename=speech.mp3" "3")] ∧
    synthesize_speech_base64 (some crash_client) demo_request =
      [.log { service_name := "tts-server", activity_type := "tts_base64",
              request := demo_request, response := .error "boom", status := "error" },
       .surface (.httpError 500 "Text-to-speech base64 synthesis failed")] :=
  ⟨((synthesis_activity_logging ok_client demo_request).2.1 [77, 97, 110] rfl).1,
   ((synthesis_activity_logging crash_client demo_request).2.2.2.2 "boom" rfl).2⟩

/-- C2: `log_activity` never raises to its caller: its result is `.ok` for
every pool and serializer behaviour; with the pool uninitialized the call is
a warn-and-skip no-op, and any failure while serializing the snapshots or
performing the insert is caught and swallowed. -/
theorem log_activity_never_raises (env : LogEnv) (service_name activity_type : String)
    (request : TTSRequest) (response : RespSnapshot) (status : String)
    (user : Option String) :
    (∃ r, log_activity env service_name activity_type request response status user = .ok r) ∧
    (env.db_pool = none →
      log_activity env service_name activity_type request response status user =
        .ok .skipped) ∧
    (∀ pool e, env.db_pool = some pool →
      attempt_insert env pool service_name activity_type request response status user
        env.hostname = .error e →
      log_activity env service_name activity_type request response status user =
        .ok (.swallowed e)) := by
  refine ⟨?_, ?_, ?_⟩
  · cases hp : env.db_pool with
    | none => exact ⟨.skipped, by simp [log_activity, hp]⟩
    | some pool =>
      cases ha : attempt_insert env pool service_name activity_type request response status
          user env.hostname with
      | ok row => exact ⟨.inserted row, by simp [log_activity, hp, ha]⟩
      | error e => exact ⟨.swallowed e, by simp [log_activity, hp, ha]⟩
  · intro h
    simp [log_activity, h]
  · intro pool e hp ha
    simp [log_activity, hp, ha]

/-- C2 witness: an uninitialized pool is skipped, and a failing insert is
swallowed, in both cases returning normally. -/
theorem log_activity_never_raises_witness :
    log_activity no_pool_env "tts-server" "tts" demo_request (.size 3) "success" none =
      .ok .skipped ∧
    log_activity failing_env "tts-server" "tts" demo_request (.size 3) "success" none =
      .ok (.swallowed "insert failed") :=
  ⟨(log_activity_never_raises no_pool_env "tts-server" "tts" demo_request (.size 3)
      "success" none).2.1 rfl,
   (log_activity_never_raises failing_env "tts-server" "tts" demo_request (.size 3)
      "success" none).2.2 failing_pool "insert failed" rfl rfl⟩

/-- C7: the base64 envelope of `POST /tts/base64` satisfies the round-trip
invariant: `audio_base64` is an ASCII string whose standard base64 decoding
recovers exactly the raw audio bytes, and `size` is the byte length of the
raw (decoded) audio, not of the encoded string. -/
theorem base64_envelope_roundtrip (client : TTSClient) (request : TTSRequest)
    (audio : List Nat) (h : client.synth_result (synth_call request) = .ok audio)
    (hbytes : ∀ x ∈ audio, x < 256) :
    surfaced (synthesize_speech_base64 (some client) request) =
      some (.base64Response (String.mk (b64encode audio)) "audio/mpeg" audio.length) ∧
    b64decode (String.mk (b64encode audio)).toList = audio ∧
    ∀ ch ∈ (String.mk (b64encode audio)).toList, ch.toNat < 128 := by
  refine ⟨by simp [synthesize_speech_base64, h, surfaced], ?_, ?_⟩
  · exact b64_roundtrip audio hbytes
  · intro ch hch
    exact b64encode_ascii audio ch hch

/-- C7 witness: the envelope for the bytes of `"Man"`: `audio_base64` is
`TWFu`, decoding recovers the bytes, and `size` is 3. -/
theorem base64_envelope_roundtrip_witness :
    surfaced (synthesize_speech_base64 (some ok_client) demo_request) =
      some (.base64Response "TWFu" "audio/mpeg" 3) ∧
    b64decode ("TWFu" : String).toList = [77, 97, 110] :=
  ⟨(base64_envelope_roundtrip ok_client demo_request [77, 97, 110] rfl (by decide)).1,
   (base64_envelope_roundtrip ok_client demo_request [77, 97, 110] rfl (by decide)).2.1⟩

/-- C8: a successful `POST /tts` surfaces the raw audio bytes unchanged as a
streaming response with media type `audio/mpeg`, content disposition
`attachment; filename=speech.mp3`, and a content-length header that is the
decimal rendering of the byte length of the raw audio. -/
theorem stream_response_headers (client : TTSClient) (request : TTSRequest)
    (audio : List Nat) (h : client.synth_result (synth_call request) = .ok audio) :
    surfaced (synthesize_speech (some client) request) =
      some (.streamResponse audio "audio/mpeg" "attachment; filename=speech.mp3"
        (toString audio.length)) := by
  simp [synthesize_speech, h, surfaced]

/-- C8 witness: the streaming response for the bytes of `"Man"`, with
content length `"3"`. -/
theorem stream_response_headers_witness :
    surfaced (synthesize_speech (some ok_client) demo_request) =
      some (.streamResponse [77, 97, 110] "audio/mpeg"
        "attachment; filename=speech.mp3" "3") :=
  stream_response_headers ok_client demo_request [77, 97, 110] rfl

/-- C9: on an unclassified synthesis failure both endpoints log status
`error` and surface an HTTP 500 whose detail is a fixed literal independent
of the exception, so no internal exception text reaches the caller (the
message appears only in the activity-log snapshot). -/
theorem unclassified_error_generic (client : TTSClient) (request : TTSRequest)
    (m : String) (h : client.synth_result (synth_call request) = .error (.otherError m)) :
    surfaced (synthesize_speech (some client) request) =
      some (.httpError 500 "Text-to-speech synthesis failed") ∧
    surfaced (synthesize_speech_base64 (some client) request) =
      some (.httpError 500 "Text-to-speech base64 synthesis failed") ∧
    first_log (synthesize_speech (some client) request) =
      some { service_name := "tts-server", activity_type := "tts", request := request,
             response := .error m, status := "error" } ∧
    first_log (synthesize_speech_base64 (some client) request) =
      some { service_name := "tts-server", activity_type := "tts_base64",
             request := request, response := .error m, status := "error" } := by
  refine ⟨?_, ?_, ?_, ?_⟩ <;>
    simp [synthesize_speech, synthesize_speech_base64, h, surfaced, first_log]

/-- C9 witness: the generic 500 details at a client whose failure message is
`boom`; the surfaced details do not contain it. -/
theorem unclassified_error_generic_witness :
    surfaced (synthesize_speech (some crash_client) demo_request) =
      some (.httpError 500 "Text-to-speech synthesis failed") ∧
    surfaced (synthesize_speech_base64 (some crash_client) demo_request) =
      some (.httpError 500 "Text-to-speech base64 synthesis failed") :=
  ⟨(unclassified_error_generic crash_client demo_request "boom" rfl).1,
   (unclassified_error_generic crash_client demo_request "boom" rfl).2.1⟩

/-- C4 (code bug): the `TTSRequest` model's `validate_text_field` — which
rejects blank or whitespace-only text and strips it, as the claim describes —
is wired through a `__get_validators__` override that the model-field
validation path does not invoke, so it never runs: whitespace-only `text` of
raw length in bounds passes the declared field constraints and is accepted
untrimmed, where the claim (and the dead validator) requires rejection.  The
divergence at the failing input: the code-model accepts `"   "` unchanged,
the spec-model rejects it. -/
theorem whitespace_text_accepted :
    validate_tts_request (some "   ") (some "en-US-Wavenet-A") (some 1.0) (some 0.0) =
      .ok { text := "   ", voice := "en-US-Wavenet-A", speed := 1.0, pitch := 0.0 } ∧
    validate_tts_request_spec (some "   ") (some "en-US-Wavenet-A") (some 1.0) (some 0.0) =
      .error (.too_short "text") := by
  constructor
  · norm_num [validate_tts_request, validate_text, validate_voice, validate_speed,
      validate_pitch, bind, Except.bind]
    rfl
  · norm_num [validate_tts_request_spec, validate_text, validate_voice, validate_speed,
      validate_pitch, bind, Except.bind]
    rfl

end TTSServer
